import Mathlib

/-!
Shallow embedding of the authentication core of the Job_portal repository
(accounts app: `services.py`, `utils.py`, `serializers.py`, `views.py`,
`models.py`).

Modelling conventions:
* Time is a `Nat` count of seconds.
* The Django cache (the ephemeral key-value store) is an association list of
  `(key, value, expiresAt)` entries; `cacheSet` overwrites any entry with the
  same key (Django cache is a keyed map, last write wins) and a read skips
  expired entries (`now < expiresAt` is required for an entry to be live).
* The random source behind `random.randint` in `utils.generate_otp` is an
  explicit input `rand : List Nat`; digit `i` of the code is `rand.getD i 0 % 10`.
* Python truthiness of a cached string (`if cached_otp and ...`,
  `if not cached_email or ...`) is modelled explicitly: `none` and `some ""`
  are both falsy.
* The user database is a `List User`; the Django password hasher is modelled as
  an injective tagging function `hashPassword` with `checkPassword` its
  verification, per the hashing-collaborator contract of the spec.
-/

/-- One cache entry: key, value, absolute expiry time (seconds). -/
abbrev Store : Type := List (String × String × Nat)

/-- Embeds `cache.get(key)`: first live entry for the key, `none` if absent or expired
(Django returns `None` for an expired or missing key). -/
def cacheGet (store : Store) (now : Nat) (key : String) : Option String :=
  match store with
  | [] => none
  | e :: rest => if e.1 = key ∧ now < e.2.2 then some e.2.1 else cacheGet rest now key

/-- Embeds `cache.set(key, value, ttl)`: overwrite any entry for the key with a fresh
value expiring at `now + ttl`. -/
def cacheSet (store : Store) (key value : String) (ttl now : Nat) : Store :=
  (key, value, now + ttl) :: List.filter (fun e => e.1 != key) store

/-- Embeds `cache.delete(key)`: drop every entry for the key (no-op when absent). -/
def cacheDelete (store : Store) (key : String) : Store :=
  List.filter (fun e => e.1 != key) store

/-- Constant `OTP_EXPIRE_SECONDS = 300` from `accounts/services.py`. -/
def OTP_EXPIRE_SECONDS : Nat := 300

/-- Embeds `utils.generate_otp(length)`: a numeric code of `len` digits, digit `i`
drawn from the random source (`str(random.randint(0, 9))` joined). -/
def generate_otp (rand : List Nat) (len : Nat) : String :=
  String.mk ((List.range len).map (fun i => Char.ofNat (48 + (rand.getD i 0) % 10)))

/-- Embeds `services.send_otp_email(email, purpose)`: generate a 6-digit code, store it
under `otp:{purpose}:{email}` with TTL 300 s, return the code.  (The actual
e-mail dispatch has no effect on the stores and is not modelled.) -/
def send_otp_email (store : Store) (now : Nat) (email purpose : String)
    (rand : List Nat) : String × Store :=
  let otp := generate_otp rand 6
  let cache_key := "otp:" ++ purpose ++ ":" ++ email
  (otp, cacheSet store cache_key otp OTP_EXPIRE_SECONDS now)

/-- Embeds `services.verify_otp(email, otp, purpose)`: read `otp:{purpose}:{email}`;
on a truthy, equal cached code delete the entry and succeed, otherwise fail
leaving the store untouched. -/
def verify_otp (store : Store) (now : Nat) (email otp purpose : String) :
    Bool × Store :=
  let cache_key := "otp:" ++ purpose ++ ":" ++ email
  match cacheGet store now cache_key with
  | some cached_otp =>
      if cached_otp ≠ "" ∧ cached_otp = otp then (true, cacheDelete store cache_key)
      else (false, store)
  | none => (false, store)

/-- Embeds the `VerifyOTPView.post` token minting (views.py lines 44-46): on a verified
OTP, store `verified:{purpose}:{token} → email` with TTL 600 s.  The UUID is
an explicit input `token`. -/
def mintVerificationToken (store : Store) (now : Nat) (purpose email token : String) :
    Store :=
  cacheSet store ("verified:" ++ purpose ++ ":" ++ token) email 600 now

/-- The User Identity record (`accounts/models.py`, fields relevant to the
authentication core).  Model defaults: `role = job_seeker`,
`is_verified = False`, `is_active = True` (from `AbstractUser`). -/
structure User where
  email : String
  first_name : String
  last_name : String
  password_hash : String
  role : String
  is_verified : Bool
  is_active : Bool
  is_staff : Bool
  is_superuser : Bool
deriving DecidableEq, Repr

/-- The Django password hasher collaborator, modelled as an injective tag. -/
def hashPassword (password : String) : String :=
  "pbkdf2:" ++ password

/-- Embeds `check_password(password, hash)` of the hasher collaborator. -/
def checkPassword (password hash : String) : Bool :=
  hashPassword password == hash

/-- Embeds `UserManager.create_user` / `_create_user` (models.py): reject an empty
email (`ValueError`), reject a duplicate email (the model field `unique=True`
database constraint), otherwise save a record with the model defaults
(`is_verified = false`, `is_active = true`, role `job_seeker`) and the hashed
password. -/
def create_user (db : List User) (email password first_name last_name : String) :
    Except String (User × List User) :=
  if email = "" then Except.error "The given email must be set"
  else if db.any (fun u => u.email == email) then Except.error "duplicate email"
  else
    let u : User :=
      { email := email, first_name := first_name, last_name := last_name
        password_hash := hashPassword password, role := "job_seeker"
        is_verified := false, is_active := true
        is_staff := false, is_superuser := false }
    Except.ok (u, db ++ [u])

/-- Failure modes of the signup pipeline (`SignupSerializer` + `SignupView`). -/
inductive SignupError where
  | fieldError (field : String)
  | invalidToken
  | emailRequired
  | duplicateEmail
deriving DecidableEq, Repr

/-- Embeds the `SignupSerializer.validate` pass condition: the cache holds
`verified:register:{token} → cached_email`, `cached_email` truthy and equal to
the supplied email. -/
def signupTokenValid (store : Store) (now : Nat) (email token : String) : Bool :=
  match cacheGet store now ("verified:register:" ++ token) with
  | none => false
  | some cached_email =>
      if cached_email = "" ∨ cached_email ≠ email then false else true

/-- Outcome of a signup request: serializer result plus the resulting user
database and cache (neither is touched on failure; the cache is never
touched at all). -/
structure SignupOutcome where
  result : Except SignupError User
  db : List User
  store : Store
deriving Repr

/-- The signup pipeline of `SignupView.post` over `SignupSerializer`:
field validation (`password` has `min_length=6`; the e-mail format regex of
`EmailField` is abstracted away, e-mails being opaque strings here), then
`validate` (the `verified:register:{token}` lookup), then `create`
(`create_user` with the password popped and hashed).  The cache is read-only
throughout. -/
def signup (store : Store) (db : List User) (now : Nat)
    (email first_name last_name password token : String) : SignupOutcome :=
  if password.length < 6 then ⟨Except.error (SignupError.fieldError "password"), db, store⟩
  else
    match cacheGet store now ("verified:register:" ++ token) with
    | none => ⟨Except.error SignupError.invalidToken, db, store⟩
    | some cached_email =>
        if cached_email = "" ∨ cached_email ≠ email then
          ⟨Except.error SignupError.invalidToken, db, store⟩
        else
          match create_user db email password first_name last_name with
          | Except.error e =>
              if e = "duplicate email" then ⟨Except.error SignupError.duplicateEmail, db, store⟩
              else ⟨Except.error SignupError.emailRequired, db, store⟩
          | Except.ok (u, db2) => ⟨Except.ok u, db2, store⟩

/-- Failure modes of `LoginSerializer.validate`. -/
inductive LoginError where
  | invalidCredentials
  | accountDisabled
deriving DecidableEq, Repr

/-- Modelled from the spec: the Django `authenticate` call in
`LoginSerializer.validate` resolves to an authentication backend configured
outside the sources at hand; per the login contract of the spec (§4.6) and the
user-store/hasher collaborator interfaces (§6) it is the pure credential
check — find the identity by email and verify the password hash. -/
def authenticate (db : List User) (email password : String) : Option User :=
  match db.find? (fun u => u.email == email) with
  | some u => if checkPassword password u.password_hash then some u else none
  | none => none

/-- Embeds `LoginSerializer.validate`: `authenticate`; no user → "Invalid email or
password."; inactive user → "User account is disabled."; otherwise the user. -/
def loginValidate (db : List User) (email password : String) :
    Except LoginError User :=
  match authenticate db email password with
  | none => Except.error LoginError.invalidCredentials
  | some user =>
      if !user.is_active then Except.error LoginError.accountDisabled
      else Except.ok user

/-- Failure modes of the reset-password pipeline (`ResetPasswordSerializer`). -/
inductive ResetError where
  | fieldError (field : String)
  | invalidToken
  | userNotFound
deriving DecidableEq, Repr

/-- Embeds the `ResetPasswordSerializer.validate` pass condition on the
`verified:reset:{token}` entry. -/
def resetTokenValid (store : Store) (now : Nat) (email token : String) : Bool :=
  match cacheGet store now ("verified:reset:" ++ token) with
  | none => false
  | some cached_email =>
      if cached_email = "" ∨ cached_email ≠ email then false else true

/-- Outcome of a reset-password request: serializer result (the updated user,
as returned by `save`), the resulting user database and the cache. -/
structure ResetOutcome where
  result : Except ResetError User
  db : List User
  store : Store
deriving Repr

/-- Embeds `user.set_password(p); user.save()`: persist a new hash for the user with
the given email. -/
def setUserPassword (db : List User) (email newHash : String) : List User :=
  db.map (fun u => if u.email == email then { u with password_hash := newHash } else u)

/-- The reset pipeline of `ResetPasswordView.post` over
`ResetPasswordSerializer`: field validation (`new_password` has
`min_length=6`), `validate` (the `verified:reset:{token}` lookup), then
`save` (`User.objects.get(email=...)`, failing with "No user found with this
email." when absent, then `set_password` + `save`).  The cache is read-only
throughout. -/
def reset_password (store : Store) (db : List User) (now : Nat)
    (email token new_password : String) : ResetOutcome :=
  if new_password.length < 6 then
    ⟨Except.error (ResetError.fieldError "new_password"), db, store⟩
  else
    match cacheGet store now ("verified:reset:" ++ token) with
    | none => ⟨Except.error ResetError.invalidToken, db, store⟩
    | some cached_email =>
        if cached_email = "" ∨ cached_email ≠ email then
          ⟨Except.error ResetError.invalidToken, db, store⟩
        else
          match db.find? (fun u => u.email == email) with
          | none => ⟨Except.error ResetError.userNotFound, db, store⟩
          | some user =>
              ⟨Except.ok { user with password_hash := hashPassword new_password },
                setUserPassword db email (hashPassword new_password), store⟩

/-- An HTTP-style response of the account views; the success body of the reset view
is `{"detail": ...}` only, so its token fields are `none`. -/
structure HttpResponse where
  status : Nat
  detail : String
  access : Option String
  refresh : Option String
deriving DecidableEq, Repr

/-- Embeds `ResetPasswordView.post`: run the serializer; on success respond 200 with
`{"detail": "Password has been reset successfully."}` (no session tokens),
on failure respond 400. -/
def resetPasswordView (store : Store) (db : List User) (now : Nat)
    (email token new_password : String) : HttpResponse × List User × Store :=
  match reset_password store db now email token new_password with
  | ⟨Except.ok _, db2, store2⟩ =>
      (⟨200, "Password has been reset successfully.", none, none⟩, db2, store2)
  | ⟨Except.error _, db2, store2⟩ =>
      (⟨400, "Invalid or expired token.", none, none⟩, db2, store2)

/-! ### Store lemmas -/

/-- Reading a key just written by `cacheSet` before its expiry yields the
written value. -/
theorem cacheGet_cacheSet_self (store : Store) (key v : String) (ttl now t : Nat)
    (ht : t < now + ttl) : cacheGet (cacheSet store key v ttl now) t key = some v := by
  simp [cacheSet, cacheGet, ht]

/-- After filtering a key out, reading that key yields `none`. -/
theorem cacheGet_filter_self (store : Store) (now : Nat) (key : String) :
    cacheGet (List.filter (fun e => e.1 != key) store) now key = none := by
  induction store with
  | nil => rfl
  | cons e rest ih =>
      simp only [List.filter_cons]
      by_cases h : e.1 = key
      · simp [h, ih]
      · simp [cacheGet, h, ih]

/-- Filtering preserves the absence of a key. -/
theorem cacheGet_filter_none (store : Store) (now : Nat) (key : String)
    (p : String × String × Nat → Bool) (h : cacheGet store now key = none) :
    cacheGet (List.filter p store) now key = none := by
  induction store with
  | nil => rfl
  | cons e rest ih =>
      rw [cacheGet] at h
      by_cases hc : e.1 = key ∧ now < e.2.2
      · simp [hc] at h
      · rw [if_neg hc] at h
        simp only [List.filter_cons]
        by_cases hp : p e
        · simp only [hp, if_pos]
          rw [cacheGet, if_neg hc]
          exact ih h
        · simp only [hp]
          exact ih h

/-- The entries selected for a key after a `cacheSet` of that key are exactly
the freshly written one. -/
theorem filter_key_cacheSet (store : Store) (key v : String) (ttl now : Nat) :
    List.filter (fun e => e.1 == key) (cacheSet store key v ttl now) =
      [(key, v, now + ttl)] := by
  simp only [cacheSet, List.filter_cons, beq_self_eq_true, if_pos]
  have h : List.filter (fun e => e.1 == key)
      (List.filter (fun e => e.1 != key) store) = [] := by
    induction store with
    | nil => rfl
    | cons e rest ih =>
        simp only [List.filter_cons]
        by_cases hk : e.1 = key
        · simp [hk, ih]
        · simp [hk, ih]
  simp [h]

/-- A generated OTP is a 6-character string, in particular truthy (non-empty). -/
theorem generate_otp_ne_empty (rand : List Nat) : generate_otp rand 6 ≠ "" := by
  intro h
  have h2 := congrArg (fun s => s.data.length) h
  simp [generate_otp] at h2

/-- The `verified:register:` and `verified:reset:` cache-key namespaces are
disjoint: no registration-token key equals a reset-token key. -/
theorem register_key_ne_reset_key (t1 t2 : String) :
    ("verified:register:" ++ t1) ≠ ("verified:reset:" ++ t2) := by
  intro h
  have h2 := congrArg String.data h
  rw [String.data_append, String.data_append] at h2
  have h3 := congrArg (fun l => l[11]?) h2
  simp only [] at h3
  rw [List.getElem?_append_left (by decide : 11 < "verified:register:".data.length),
    List.getElem?_append_left (by decide : 11 < "verified:reset:".data.length)] at h3
  exact absurd h3 (by decide)

/-- Reading a key written by `cacheSet` at or after its expiry yields `none`
(the overwrite removed every other entry for the key). -/
theorem cacheGet_cacheSet_expired (store : Store) (key v : String) (ttl now t : Nat)
    (ht : ¬t < now + ttl) : cacheGet (cacheSet store key v ttl now) t key = none := by
  rw [cacheSet, cacheGet]
  rw [if_neg (fun hand => ht hand.2)]
  exact cacheGet_filter_self store t key

/-- Writing one key does not create another: a key absent from the store and
different from the written one stays absent. -/
theorem cacheGet_cacheSet_ne (store : Store) (key v k2 : String) (ttl now t : Nat)
    (hne : k2 ≠ key) (h : cacheGet store t k2 = none) :
    cacheGet (cacheSet store key v ttl now) t k2 = none := by
  rw [cacheSet, cacheGet]
  rw [if_neg (fun hand => hne hand.1.symm)]
  exact cacheGet_filter_none store t k2 _ h

/-- Rewriting the literal prefix of a key, used to relate the
`verified:{purpose}:{token}` key built by the minting view to the
fixed-purpose keys used by the consuming serializers. -/
theorem key_head_congr (a b t : String) (h : a = b) : a ++ t = b ++ t :=
  congrArg (fun s => s ++ t) h

/-- A user created by `create_user` carries the model default
`is_verified = false`. -/
theorem create_user_unverified (db : List User) (email pw fn ln : String)
    (u : User) (db2 : List User)
    (h : create_user db email pw fn ln = Except.ok (u, db2)) :
    u.is_verified = false := by
  rw [create_user] at h
  split at h
  · simp at h
  · split at h
    · simp at h
    · have h2 := (Except.ok.injEq _ _).mp h
      simp only [Prod.mk.injEq] at h2
      obtain ⟨hu, hdb⟩ := h2
      subst hu
      rfl

/-- The signup pipeline never writes the cache, whatever its outcome. -/
theorem signup_store_frame (store : Store) (db : List User) (now : Nat)
    (email fn ln pw tok : String) :
    (signup store db now email fn ln pw tok).store = store := by
  rw [signup]
  split
  · rfl
  · split
    · rfl
    · split
      · rfl
      · split
        · split
          · rfl
          · rfl
        · rfl

/-- The reset-password pipeline never writes the cache, whatever its outcome. -/
theorem reset_password_store_frame (store : Store) (db : List User) (now : Nat)
    (email tok pw : String) :
    (reset_password store db now email tok pw).store = store := by
  rw [reset_password]
  split
  · rfl
  · split
    · rfl
    · split
      · rfl
      · split
        · rfl
        · rfl

/-- A successful signup presupposes that its registration token validates. -/
theorem signup_ok_token_valid (store : Store) (db : List User) (now : Nat)
    (email fn ln pw tok : String) (u : User)
    (h : (signup store db now email fn ln pw tok).result = Except.ok u) :
    signupTokenValid store now email tok = true := by
  rw [signup] at h
  split at h
  · simp at h
  · split at h
    · simp at h
    · next c hg =>
        split at h
        · simp at h
        · next hcond =>
            rw [signupTokenValid, hg]
            show (if c = "" ∨ c ≠ email then false else true) = true
            rw [if_neg hcond]

/-- A successful reset presupposes that its reset token validates. -/
theorem reset_ok_token_valid (store : Store) (db : List User) (now : Nat)
    (email tok pw : String) (u : User)
    (h : (reset_password store db now email tok pw).result = Except.ok u) :
    resetTokenValid store now email tok = true := by
  rw [reset_password] at h
  split at h
  · simp at h
  · split at h
    · simp at h
    · next c hg =>
        split at h
        · simp at h
        · next hcond =>
            rw [resetTokenValid, hg]
            show (if c = "" ∨ c ≠ email then false else true) = true
            rw [if_neg hcond]

/-- The response of the reset view never carries session tokens. -/
theorem resetPasswordView_no_tokens (store : Store) (db : List User) (now : Nat)
    (email tok pw : String) :
    (resetPasswordView store db now email tok pw).1.access = none ∧
    (resetPasswordView store db now email tok pw).1.refresh = none := by
  rw [resetPasswordView]
  split
  · exact ⟨rfl, rfl⟩
  · exact ⟨rfl, rfl⟩

/-! ### Claim theorems -/

/-- C1: for a pending OTP stored by `send_otp_email` and not yet expired or
overwritten, `verify_otp` with the stored code succeeds and deletes the store
entry, and an immediately following second `verify_otp` with the same code
fails (one-time use). -/
theorem otp_verify_once (store : Store) (now t : Nat) (email purpose : String)
    (rand : List Nat) (otp : String) (store1 : Store)
    (hreq : send_otp_email store now email purpose rand = (otp, store1))
    (ht : t < now + 300)
    (ok : Bool) (store2 : Store)
    (hver : verify_otp store1 t email otp purpose = (ok, store2)) :
    ok = true ∧ cacheGet store2 t ("otp:" ++ purpose ++ ":" ++ email) = none ∧
      (verify_otp store2 t email otp purpose).1 = false := by
  simp only [send_otp_email, Prod.mk.injEq] at hreq
  obtain ⟨hotp, hstore1⟩ := hreq
  subst hotp hstore1
  have hget : cacheGet
      (cacheSet store ("otp:" ++ purpose ++ ":" ++ email) (generate_otp rand 6)
        OTP_EXPIRE_SECONDS now) t ("otp:" ++ purpose ++ ":" ++ email) =
      some (generate_otp rand 6) :=
    cacheGet_cacheSet_self _ _ _ _ _ _ (by simpa [OTP_EXPIRE_SECONDS] using ht)
  rw [verify_otp] at hver
  simp only [hget] at hver
  rw [if_pos (And.intro (generate_otp_ne_empty rand) trivial)] at hver
  have hok : true = ok := congrArg Prod.fst hver
  have hstore2 :
      cacheDelete (cacheSet store ("otp:" ++ purpose ++ ":" ++ email)
          (generate_otp rand 6) OTP_EXPIRE_SECONDS now)
        ("otp:" ++ purpose ++ ":" ++ email) = store2 :=
    congrArg Prod.snd hver
  have hdel : cacheGet store2 t ("otp:" ++ purpose ++ ":" ++ email) = none := by
    rw [← hstore2]
    exact cacheGet_filter_self _ _ _
  refine ⟨hok.symm, hdel, ?_⟩
  rw [verify_otp]
  simp only [hdel]

/-- C1 witness: the round trip at a concrete store, code and time. -/
theorem otp_verify_once_witness :
    (verify_otp (send_otp_email [] 0 "a@x.com" "register" [1, 2, 3, 4, 5, 6]).2
        10 "a@x.com" "123456" "register").1 = true ∧
      cacheGet (verify_otp (send_otp_email [] 0 "a@x.com" "register"
          [1, 2, 3, 4, 5, 6]).2 10 "a@x.com" "123456" "register").2
        10 ("otp:" ++ "register" ++ ":" ++ "a@x.com") = none ∧
      (verify_otp (verify_otp (send_otp_email [] 0 "a@x.com" "register"
          [1, 2, 3, 4, 5, 6]).2 10 "a@x.com" "123456" "register").2
        10 "a@x.com" "123456" "register").1 = false := by
  have h := otp_verify_once [] 0 10 "a@x.com" "register" [1, 2, 3, 4, 5, 6]
    "123456"
    (send_otp_email [] 0 "a@x.com" "register" [1, 2, 3, 4, 5, 6]).2
    (by decide) (by decide)
    (verify_otp (send_otp_email [] 0 "a@x.com" "register" [1, 2, 3, 4, 5, 6]).2
      10 "a@x.com" "123456" "register").1
    (verify_otp (send_otp_email [] 0 "a@x.com" "register" [1, 2, 3, 4, 5, 6]).2
      10 "a@x.com" "123456" "register").2
    (by decide)
  exact h

/-- C7: a `send_otp_email` call leaves exactly one entry for the
`otp:{purpose}:{email}` key — the fresh code with expiry `now + 300` — and a
previous code distinct from the fresh one no longer verifies at any time. -/
theorem otp_overwrite_single_live (store : Store) (now t : Nat)
    (email purpose : String) (rand : List Nat) (otp2 : String) (store2 : Store)
    (hreq : send_otp_email store now email purpose rand = (otp2, store2))
    (c1 : String) (hne : c1 ≠ otp2) :
    List.filter (fun e => e.1 == ("otp:" ++ purpose ++ ":" ++ email)) store2 =
      [("otp:" ++ purpose ++ ":" ++ email, otp2, now + 300)] ∧
    (verify_otp store2 t email c1 purpose).1 = false := by
  simp only [send_otp_email, Prod.mk.injEq] at hreq
  obtain ⟨hotp, hstore2⟩ := hreq
  subst hotp hstore2
  constructor
  · simpa [OTP_EXPIRE_SECONDS] using
      filter_key_cacheSet store ("otp:" ++ purpose ++ ":" ++ email)
        (generate_otp rand 6) OTP_EXPIRE_SECONDS now
  · rw [verify_otp]
    by_cases ht : t < now + OTP_EXPIRE_SECONDS
    · have hget := cacheGet_cacheSet_self store ("otp:" ++ purpose ++ ":" ++ email)
        (generate_otp rand 6) OTP_EXPIRE_SECONDS now t ht
      simp only [hget]
      rw [if_neg (fun hand => hne hand.2.symm)]
    · have hget := cacheGet_cacheSet_expired store ("otp:" ++ purpose ++ ":" ++ email)
        (generate_otp rand 6) OTP_EXPIRE_SECONDS now t ht
      simp only [hget]

/-- C7 witness: overwriting a pending code `"999999"` with `"123456"` leaves a
single live entry and the old code is rejected. -/
theorem otp_overwrite_single_live_witness :
    List.filter (fun e => e.1 == ("otp:" ++ "register" ++ ":" ++ "a@x.com"))
        (send_otp_email [("otp:register:a@x.com", "999999", 300)] 50 "a@x.com"
          "register" [1, 2, 3, 4, 5, 6]).2 =
      [("otp:" ++ "register" ++ ":" ++ "a@x.com", "123456", 50 + 300)] ∧
    (verify_otp (send_otp_email [("otp:register:a@x.com", "999999", 300)] 50
        "a@x.com" "register" [1, 2, 3, 4, 5, 6]).2 60 "a@x.com" "999999"
      "register").1 = false :=
  otp_overwrite_single_live [("otp:register:a@x.com", "999999", 300)] 50 60
    "a@x.com" "register" [1, 2, 3, 4, 5, 6] "123456"
    (send_otp_email [("otp:register:a@x.com", "999999", 300)] 50 "a@x.com"
      "register" [1, 2, 3, 4, 5, 6]).2
    (by decide) "999999" (by decide)

/-- C8: the failure returned by `verify_otp` does not distinguish "no pending
OTP" from "wrong code": the result on a store with no live entry equals the
result on a store holding a different code, both being `false`. -/
theorem verify_otp_indistinguishable_failure (s1 s2 : Store) (now : Nat)
    (email purpose code c2 : String)
    (h1 : cacheGet s1 now ("otp:" ++ purpose ++ ":" ++ email) = none)
    (h2 : cacheGet s2 now ("otp:" ++ purpose ++ ":" ++ email) = some c2)
    (hne : c2 ≠ code) :
    (verify_otp s1 now email code purpose).1 =
      (verify_otp s2 now email code purpose).1 ∧
    (verify_otp s1 now email code purpose).1 = false := by
  have e1 : (verify_otp s1 now email code purpose).1 = false := by
    rw [verify_otp]
    simp only [h1]
  have e2 : (verify_otp s2 now email code purpose).1 = false := by
    rw [verify_otp]
    simp only [h2]
    rw [if_neg (fun hand => hne hand.2)]
  exact ⟨e1.trans e2.symm, e1⟩

/-- C8 witness: `"000000"` against an empty store and against a store holding
`"123456"` yields the same failure. -/
theorem verify_otp_indistinguishable_failure_witness :
    (verify_otp [] 7 "a@x.com" "000000" "register").1 =
      (verify_otp [("otp:register:a@x.com", "123456", 300)] 7 "a@x.com"
        "000000" "register").1 ∧
    (verify_otp [] 7 "a@x.com" "000000" "register").1 = false :=
  verify_otp_indistinguishable_failure []
    [("otp:register:a@x.com", "123456", 300)] 7 "a@x.com" "register" "000000"
    "123456" (by decide) (by decide) (by decide)

/-- C10: a failed `verify_otp` leaves the store unchanged, and any pending OTP
(with a truthy code) still verifies afterwards with the correct code. -/
theorem verify_otp_failure_frame (store : Store) (now : Nat)
    (email purpose guess : String)
    (hfail : (verify_otp store now email guess purpose).1 = false) :
    (verify_otp store now email guess purpose).2 = store ∧
    ∀ c, cacheGet store now ("otp:" ++ purpose ++ ":" ++ email) = some c →
      c ≠ "" →
      (verify_otp (verify_otp store now email guess purpose).2 now email c
        purpose).1 = true := by
  have hframe : (verify_otp store now email guess purpose).2 = store := by
    rw [verify_otp] at hfail ⊢
    cases hg : cacheGet store now ("otp:" ++ purpose ++ ":" ++ email) with
    | none => simp [hg]
    | some c =>
        simp only [hg] at hfail ⊢
        by_cases hcond : c ≠ "" ∧ c = guess
        · rw [if_pos hcond] at hfail
          simp at hfail
        · rw [if_neg hcond]
  refine ⟨hframe, ?_⟩
  intro c hgc hcne
  rw [hframe, verify_otp]
  simp only [hgc]
  rw [if_pos (And.intro hcne trivial)]

/-- C10 witness: a wrong guess against a pending `"123456"` fails, changes
nothing, and the correct code still verifies. -/
theorem verify_otp_failure_frame_witness :
    (verify_otp [("otp:register:a@x.com", "123456", 300)] 7 "a@x.com" "000000"
      "register").2 = [("otp:register:a@x.com", "123456", 300)] ∧
    ∀ c, cacheGet [("otp:register:a@x.com", "123456", 300)] 7
        ("otp:" ++ "register" ++ ":" ++ "a@x.com") = some c →
      c ≠ "" →
      (verify_otp (verify_otp [("otp:register:a@x.com", "123456", 300)] 7
          "a@x.com" "000000" "register").2 7 "a@x.com" c "register").1 = true :=
  verify_otp_failure_frame [("otp:register:a@x.com", "123456", 300)] 7
    "a@x.com" "register" "000000" (by decide)

example : (verify_otp [] 0 "a@x.com" "123456" "register").1 = false := by decide

example :
    (send_otp_email [] 0 "a@x.com" "register" [1, 2, 3, 4, 5, 6]).1 = "123456" := by decide

example :
    (verify_otp (send_otp_email [] 0 "a@x.com" "register" [1, 2, 3, 4, 5, 6]).2
      10 "a@x.com" "123456" "register").1 = true := by decide

/-- C2 counterexample: a concrete signup with a valid registration token
succeeds, yet the created identity has `is_verified = false` — refuting the
claim that registration creates the record with `is_verified = true`. -/
theorem signup_verified_flag_counterexample :
    ∃ u, (signup [("verified:register:tok", "a@x.com", 600)] [] 0 "a@x.com"
        "Ann" "Lee" "secret1" "tok").result = Except.ok u ∧
      u.is_verified = false := by
  exact ⟨_, rfl, rfl⟩

/-- C2 (amended): every successful signup through a valid registration token
creates the User Identity with `is_verified = false`, the model default —
`SignupSerializer.create` never sets the flag. -/
theorem signup_creates_unverified (store : Store) (db : List User) (now : Nat)
    (email fn ln pw tok : String) (u : User)
    (h : (signup store db now email fn ln pw tok).result = Except.ok u) :
    u.is_verified = false := by
  rw [signup] at h
  split at h
  · simp at h
  · split at h
    · simp at h
    · split at h
      · simp at h
      · split at h
        · split at h
          · simp at h
          · simp at h
        · next u2 db2 heq =>
            have h2 : u2 = u := by simpa using h
            subst h2
            exact create_user_unverified _ _ _ _ _ _ _ heq

/-- C2 (amended) witness: the concrete successful signup, with the flag
evaluated. -/
theorem signup_creates_unverified_witness :
    ∃ u, (signup [("verified:register:tok", "a@x.com", 600)] [] 0 "a@x.com"
        "Ann" "Lee" "secret1" "tok").result = Except.ok u ∧
      u.is_verified = false :=
  ⟨{ email := "a@x.com", first_name := "Ann", last_name := "Lee",
     password_hash := hashPassword "secret1", role := "job_seeker",
     is_verified := false, is_active := true, is_staff := false,
     is_superuser := false },
   rfl,
   signup_creates_unverified [("verified:register:tok", "a@x.com", 600)] [] 0
     "a@x.com" "Ann" "Lee" "secret1" "tok"
     { email := "a@x.com", first_name := "Ann", last_name := "Lee",
       password_hash := hashPassword "secret1", role := "job_seeker",
       is_verified := false, is_active := true, is_staff := false,
       is_superuser := false } rfl⟩

/-- C3: a login with the correct password for an existing inactive identity
fails with `AccountDisabled`, never with `InvalidCredentials`. -/
theorem login_inactive_account_disabled (db : List User)
    (email password : String) (u : User)
    (hfind : db.find? (fun x => x.email == email) = some u)
    (hpw : checkPassword password u.password_hash = true)
    (hinactive : u.is_active = false) :
    loginValidate db email password = Except.error LoginError.accountDisabled ∧
    loginValidate db email password ≠
      Except.error LoginError.invalidCredentials := by
  have hauth : authenticate db email password = some u := by
    rw [authenticate, hfind]
    show (if checkPassword password u.password_hash = true then some u else none) =
      some u
    rw [if_pos hpw]
  rw [loginValidate, hauth]
  simp only [hinactive]
  exact ⟨rfl, by simp⟩

/-- C3 witness: a concrete inactive user with the matching password. -/
theorem login_inactive_account_disabled_witness :
    loginValidate
        [{ email := "a@x.com", first_name := "Ann", last_name := "Lee",
           password_hash := hashPassword "secret1", role := "job_seeker",
           is_verified := true, is_active := false, is_staff := false,
           is_superuser := false }] "a@x.com" "secret1" =
      Except.error LoginError.accountDisabled ∧
    loginValidate
        [{ email := "a@x.com", first_name := "Ann", last_name := "Lee",
           password_hash := hashPassword "secret1", role := "job_seeker",
           is_verified := true, is_active := false, is_staff := false,
           is_superuser := false }] "a@x.com" "secret1" ≠
      Except.error LoginError.invalidCredentials :=
  login_inactive_account_disabled _ "a@x.com" "secret1"
    { email := "a@x.com", first_name := "Ann", last_name := "Lee",
      password_hash := hashPassword "secret1", role := "job_seeker",
      is_verified := true, is_active := false, is_staff := false,
      is_superuser := false } rfl rfl rfl

/-- C4: whenever the `verified:register:{token}` entry is absent, or binds an
email other than the supplied one, signup fails with `InvalidToken` and
creates no user record (the request passing the password field check). -/
theorem signup_invalid_token_no_user (store : Store) (db : List User)
    (now : Nat) (email fn ln pw tok : String)
    (hpw : 6 ≤ pw.length)
    (hbad : ∀ c, cacheGet store now ("verified:register:" ++ tok) = some c →
      c ≠ email) :
    (signup store db now email fn ln pw tok).result =
      Except.error SignupError.invalidToken ∧
    (signup store db now email fn ln pw tok).db = db := by
  rw [signup, if_neg (Nat.not_lt.mpr hpw)]
  cases hg : cacheGet store now ("verified:register:" ++ tok) with
  | none => exact ⟨rfl, rfl⟩
  | some c =>
      simp only []
      rw [if_pos (Or.inr (hbad c hg))]
      exact ⟨rfl, rfl⟩

/-- C4 witness: an absent entry and a mismatched-email entry both yield
`InvalidToken` with the user database untouched. -/
theorem signup_invalid_token_no_user_witness :
    (signup [("verified:register:tok", "b@x.com", 600)] [] 0 "a@x.com" "Ann"
        "Lee" "secret1" "tok").result = Except.error SignupError.invalidToken ∧
    (signup [("verified:register:tok", "b@x.com", 600)] [] 0 "a@x.com" "Ann"
        "Lee" "secret1" "tok").db = [] :=
  signup_invalid_token_no_user [("verified:register:tok", "b@x.com", 600)] []
    0 "a@x.com" "Ann" "Lee" "secret1" "tok" (by decide)
    (by intro c hc; simp [cacheGet] at hc; simp [hc.symm])

/-- C5: a verification token minted under purpose `register` is rejected with
`InvalidToken` by the password-reset consumption path, and one minted under
purpose `reset` is rejected by the registration consumption path — the
`verified:{purpose}:{token}` namespaces are disjoint.  Freshness of the minted
token is the hypothesis that the opposite-namespace key was absent before the
mint. -/
theorem verified_token_namespace_isolation
    (storeR storeS : Store) (dbR dbS : List User) (now : Nat)
    (emailR emailS emailM1 emailM2 fn ln pw tokR tokS : String)
    (hpw : 6 ≤ pw.length)
    (hfreshR : cacheGet storeR now ("verified:reset:" ++ tokR) = none)
    (hfreshS : cacheGet storeS now ("verified:register:" ++ tokS) = none) :
    (reset_password (mintVerificationToken storeR now "register" emailM1 tokR)
        dbR now emailR tokR pw).result = Except.error ResetError.invalidToken ∧
    (signup (mintVerificationToken storeS now "reset" emailM2 tokS) dbS now
        emailS fn ln pw tokS).result = Except.error SignupError.invalidToken := by
  constructor
  · rw [reset_password, if_neg (Nat.not_lt.mpr hpw)]
    have hkey : cacheGet (mintVerificationToken storeR now "register" emailM1 tokR)
        now ("verified:reset:" ++ tokR) = none := by
      rw [mintVerificationToken,
        key_head_congr ("verified:" ++ "register" ++ ":") "verified:register:"
          tokR (by decide)]
      exact cacheGet_cacheSet_ne storeR ("verified:register:" ++ tokR) emailM1
        ("verified:reset:" ++ tokR) 600 now now
        (fun he => register_key_ne_reset_key tokR tokR he.symm) hfreshR
    simp only [hkey]
  · rw [signup, if_neg (Nat.not_lt.mpr hpw)]
    have hkey : cacheGet (mintVerificationToken storeS now "reset" emailM2 tokS)
        now ("verified:register:" ++ tokS) = none := by
      rw [mintVerificationToken,
        key_head_congr ("verified:" ++ "reset" ++ ":") "verified:reset:"
          tokS (by decide)]
      exact cacheGet_cacheSet_ne storeS ("verified:reset:" ++ tokS) emailM2
        ("verified:register:" ++ tokS) 600 now now
        (register_key_ne_reset_key tokS tokS) hfreshS
    simp only [hkey]

/-- C5 witness: concrete mints into an empty store, rejected crosswise. -/
theorem verified_token_namespace_isolation_witness :
    (reset_password (mintVerificationToken [] 0 "register" "a@x.com" "t1")
        [] 0 "a@x.com" "t1" "secret1").result =
      Except.error ResetError.invalidToken ∧
    (signup (mintVerificationToken [] 0 "reset" "a@x.com" "t2") [] 0
        "a@x.com" "Ann" "Lee" "secret1" "t2").result =
      Except.error SignupError.invalidToken :=
  verified_token_namespace_isolation [] [] [] [] 0 "a@x.com" "a@x.com"
    "a@x.com" "a@x.com" "Ann" "Lee" "secret1" "t1" "t2" (by decide) (by decide)
    (by decide)

/-- C6: under a valid reset token bound to `email`, reset-password fails with
`UserNotFound` when no identity exists for the email; otherwise it succeeds,
the persisted credential verifies the new password, and the success
response carries no session tokens. -/
theorem reset_password_correct (store : Store) (db : List User) (now : Nat)
    (email tok pw : String)
    (hpw : 6 ≤ pw.length)
    (htok : cacheGet store now ("verified:reset:" ++ tok) = some email)
    (hemail : email ≠ "") :
    (db.find? (fun u => u.email == email) = none →
      (reset_password store db now email tok pw).result =
        Except.error ResetError.userNotFound) ∧
    (∀ u, db.find? (fun u => u.email == email) = some u →
      (reset_password store db now email tok pw).result =
        Except.ok { u with password_hash := hashPassword pw } ∧
      checkPassword pw
        ({ u with password_hash := hashPassword pw }).password_hash = true ∧
      ∀ v ∈ (reset_password store db now email tok pw).db, v.email = email →
        checkPassword pw v.password_hash = true) ∧
    (resetPasswordView store db now email tok pw).1.access = none ∧
    (resetPasswordView store db now email tok pw).1.refresh = none := by
  have hred : ∀ r, db.find? (fun u => u.email == email) = r →
      reset_password store db now email tok pw =
        (match r with
          | none => ⟨Except.error ResetError.userNotFound, db, store⟩
          | some user =>
              ⟨Except.ok { user with password_hash := hashPassword pw },
                setUserPassword db email (hashPassword pw), store⟩) := by
    intro r hr
    rw [reset_password, if_neg (Nat.not_lt.mpr hpw)]
    simp only [htok]
    rw [if_neg (fun hor => hor.elim hemail (fun hne => hne rfl))]
    rw [hr]
  refine ⟨?_, ?_, (resetPasswordView_no_tokens store db now email tok pw).1,
    (resetPasswordView_no_tokens store db now email tok pw).2⟩
  · intro hnone
    rw [hred none hnone]
  · intro u hu
    rw [hred (some u) hu]
    refine ⟨rfl, by simp [checkPassword], ?_⟩
    intro v hv hve
    simp only [setUserPassword] at hv
    rcases List.mem_map.mp hv with ⟨w, hw, hwv⟩
    by_cases hb : w.email == email
    · rw [← hwv, if_pos hb]
      simp [checkPassword]
    · exfalso
      rw [← hwv, if_neg hb] at hve
      exact hb (by simp [hve])

/-- C6 witness: a valid reset token, an absent user (UserNotFound) is covered
by the empty database, and the success branches by a one-user database. -/
theorem reset_password_correct_witness :
    ((([] : List User).find? (fun u => u.email == "a@x.com") = none →
      (reset_password [("verified:reset:t1", "a@x.com", 600)] [] 0 "a@x.com"
        "t1" "secret2").result = Except.error ResetError.userNotFound) ∧
    (∀ u, ([] : List User).find? (fun u => u.email == "a@x.com") = some u →
      (reset_password [("verified:reset:t1", "a@x.com", 600)] [] 0 "a@x.com"
        "t1" "secret2").result =
        Except.ok { u with password_hash := hashPassword "secret2" } ∧
      checkPassword "secret2"
        ({ u with password_hash := hashPassword "secret2" }).password_hash =
          true ∧
      ∀ v ∈ (reset_password [("verified:reset:t1", "a@x.com", 600)] [] 0
          "a@x.com" "t1" "secret2").db, v.email = "a@x.com" →
        checkPassword "secret2" v.password_hash = true) ∧
    (resetPasswordView [("verified:reset:t1", "a@x.com", 600)] [] 0 "a@x.com"
      "t1" "secret2").1.access = none ∧
    (resetPasswordView [("verified:reset:t1", "a@x.com", 600)] [] 0 "a@x.com"
      "t1" "secret2").1.refresh = none) :=
  reset_password_correct [("verified:reset:t1", "a@x.com", 600)] [] 0
    "a@x.com" "t1" "secret2" (by decide) (by decide) (by decide)

/-- C9: neither a successful signup nor a successful reset deletes (or writes)
anything in the ephemeral store, so the consumed `verified:{purpose}:{token}`
entry survives and the same token still passes token validation afterwards. -/
theorem verified_token_not_deleted
    (storeA : Store) (dbA : List User) (nowA : Nat)
    (emailA fnA lnA pwA tokA : String) (uA : User)
    (hA : (signup storeA dbA nowA emailA fnA lnA pwA tokA).result = Except.ok uA)
    (storeB : Store) (dbB : List User) (nowB : Nat)
    (emailB tokB pwB : String) (uB : User)
    (hB : (reset_password storeB dbB nowB emailB tokB pwB).result =
      Except.ok uB) :
    (signup storeA dbA nowA emailA fnA lnA pwA tokA).store = storeA ∧
    signupTokenValid (signup storeA dbA nowA emailA fnA lnA pwA tokA).store
      nowA emailA tokA = true ∧
    (reset_password storeB dbB nowB emailB tokB pwB).store = storeB ∧
    resetTokenValid (reset_password storeB dbB nowB emailB tokB pwB).store
      nowB emailB tokB = true := by
  have hfA := signup_store_frame storeA dbA nowA emailA fnA lnA pwA tokA
  have hfB := reset_password_store_frame storeB dbB nowB emailB tokB pwB
  refine ⟨hfA, ?_, hfB, ?_⟩
  · rw [hfA]
    exact signup_ok_token_valid storeA dbA nowA emailA fnA lnA pwA tokA uA hA
  · rw [hfB]
    exact reset_ok_token_valid storeB dbB nowB emailB tokB pwB uB hB

/-- C9 witness: concrete successful signup and reset, with the token checks
still passing afterwards. -/
theorem verified_token_not_deleted_witness :
    (signup [("verified:register:tok", "a@x.com", 600)] [] 0 "a@x.com" "Ann"
      "Lee" "secret1" "tok").store = [("verified:register:tok", "a@x.com", 600)] ∧
    signupTokenValid (signup [("verified:register:tok", "a@x.com", 600)] [] 0
      "a@x.com" "Ann" "Lee" "secret1" "tok").store 0 "a@x.com" "tok" = true ∧
    (reset_password [("verified:reset:t1", "b@x.com", 600)]
      [{ email := "b@x.com", first_name := "Bo", last_name := "Li",
         password_hash := hashPassword "old-pw1", role := "job_seeker",
         is_verified := false, is_active := true, is_staff := false,
         is_superuser := false }] 0 "b@x.com" "t1" "secret2").store =
      [("verified:reset:t1", "b@x.com", 600)] ∧
    resetTokenValid (reset_password [("verified:reset:t1", "b@x.com", 600)]
      [{ email := "b@x.com", first_name := "Bo", last_name := "Li",
         password_hash := hashPassword "old-pw1", role := "job_seeker",
         is_verified := false, is_active := true, is_staff := false,
         is_superuser := false }] 0 "b@x.com" "t1" "secret2").store 0 "b@x.com"
      "t1" = true :=
  verified_token_not_deleted [("verified:register:tok", "a@x.com", 600)] [] 0
    "a@x.com" "Ann" "Lee" "secret1" "tok"
    { email := "a@x.com", first_name := "Ann", last_name := "Lee",
      password_hash := hashPassword "secret1", role := "job_seeker",
      is_verified := false, is_active := true, is_staff := false,
      is_superuser := false } rfl
    [("verified:reset:t1", "b@x.com", 600)]
    [{ email := "b@x.com", first_name := "Bo", last_name := "Li",
       password_hash := hashPassword "old-pw1", role := "job_seeker",
       is_verified := false, is_active := true, is_staff := false,
       is_superuser := false }] 0 "b@x.com" "t1" "secret2"
    { email := "b@x.com", first_name := "Bo", last_name := "Li",
      password_hash := hashPassword "secret2", role := "job_seeker",
      is_verified := false, is_active := true, is_staff := false,
      is_superuser := false } rfl
